import Mathlib

/-!
Formal model of the direct-messaging subsystem of the Task-Management
repository (`project_manager/messages_api.py`): conversation resolution,
deduplicated sending, read-state tracking, unread counting and the
best-effort pub/sub fanout.

Timestamps are natural numbers (seconds).  The store keeps message rows in
primary-key (insertion) order, ids coming from a monotonically increasing
counter, matching relational autoincrement keys.  `order_by("created_at")`
guarantees only the `isOrderByCreatedResult` contract (a permutation
nondecreasing in the timestamp; tie order unspecified); the embedding
computes one admissible such result.  Django's `QuerySet.first()` on an
unordered queryset (which sorts by primary key) is `List.find?` over the
insertion-ordered row list.
-/

/-- Modelled from the spec: the user identity record (`core.models.User`
is not among the sources).  Only the fields this subsystem reads: a unique
numeric id, the display-name parts and a username. -/
structure User where
  id : Nat
  first_name : String
  last_name : String
  username : String
deriving Repr, DecidableEq

/-- Modelled from the spec: the message row (`core.models.Message` is not
among the sources).  One sender, a recipient set (kept in attach order),
free-text content, a message-kind tag, a read flag defaulting to false,
and a creation timestamp. -/
structure Message where
  id : Nat
  sender_id : Nat
  recipients : List Nat
  content : String
  message_type : String
  is_read : Bool
  created_at : Nat
deriving Repr, DecidableEq

/-- The relational store as this subsystem sees it: the user table, the
message table in primary-key order, and the autoincrement counter. -/
structure Store where
  users : List User
  messages : List Message
  nextId : Nat
deriving Repr, DecidableEq

/-- `User.objects.get(id=uid)`, as an `Option`. -/
def getUser (s : Store) (uid : Nat) : Option User :=
  s.users.find? (fun u => u.id == uid)

/-- Python's `str.upper()`: character-wise uppercasing. -/
def py_upper (s : String) : String :=
  ⟨s.data.map Char.toUpper⟩

/-- Python's `str.strip()`: drop leading and trailing whitespace. -/
def py_strip (s : String) : String :=
  ⟨((s.data.dropWhile Char.isWhitespace).reverse.dropWhile Char.isWhitespace).reverse⟩

/-- The fixed avatar palette of `get_user_color`. -/
def colors : List String :=
  ["dark-teal", "dark-cyan", "golden-orange",
   "rusty-spice", "oxidized-iron", "brown-red"]

/-- `get_user_color`: a pure function of the numeric user id. -/
def get_user_color (user_id : Nat) : String :=
  "bg-" ++ colors.getD (user_id % colors.length) ""

/-- The initials expression that `messages_api.py` repeats at each payload
site: first letter of first name plus first letter of last name, upper
cased, when both are non-empty (Python string truthiness); otherwise the
first two characters of the username, uppercased. -/
def user_initials (u : User) : String :=
  if !u.first_name.isEmpty && !u.last_name.isEmpty then
    py_upper (u.first_name.take 1 ++ u.last_name.take 1)
  else
    py_upper (u.username.take 2)

/-- Outcome of one raw call against the pub/sub broker: an answer, or the
broker is unreachable / the client raises. -/
inductive BrokerCall where
  | ok (hasKey : Bool)
  | error
deriving Repr, DecidableEq

/-- The pub/sub broker as the module sees it: whether the start-up
connection succeeded (`REDIS_AVAILABLE`), how a key-existence probe
answers, and whether a publish raises. -/
structure Broker where
  available : Bool
  keyProbe : String → BrokerCall
  publishRaises : Bool

/-- `redis_exists`: `False` when the client is unavailable, the probe's
answer otherwise, and `False` again when the probe raises. -/
def redis_exists (br : Broker) (key : String) : Bool :=
  if !br.available then false
  else
    match br.keyProbe key with
    | .ok b => b
    | .error => false

/-- What became of one publish attempt. -/
inductive PubOutcome where
  | delivered
  | dropped
deriving Repr, DecidableEq

/-- `redis_publish`: a no-op when the client is unavailable; an exception
during publish is swallowed.  Either way the caller sees nothing. -/
def redis_publish (br : Broker) (_channel : String) : PubOutcome :=
  if !br.available then .dropped
  else if br.publishRaises then .dropped
  else .delivered

/-- The fanout payload of `publish_message` (the fields the claims rely
on; `sender_name` mirrors `get_full_name`, kept as the raw name parts). -/
structure FanoutPayload where
  message_id : Nat
  sender_id : Nat
  recipient_id : Nat
  content : String
  timestamp : Nat
  avatar_color : String
  initials : String
deriving Repr, DecidableEq

/-- `publish_message`: build the payload once and publish it on the
recipient's and the sender's channels. -/
def publish_message (br : Broker) (m : Message) (sender recipient : User) :
    FanoutPayload × List PubOutcome :=
  let payload : FanoutPayload :=
    { message_id := m.id
      sender_id := sender.id
      recipient_id := recipient.id
      content := m.content
      timestamp := m.created_at
      avatar_color := get_user_color sender.id
      initials := user_initials sender }
  (payload,
   [redis_publish br ("user_" ++ toString recipient.id),
    redis_publish br ("user_" ++ toString sender.id)])

/-- The conversation queryset condition of `get_conversation_messages`:
`Q(sender=current, recipients=other, type="direct") | Q(sender=other,
recipients=current, type="direct")`. -/
def conversationFilter (viewer other : Nat) (m : Message) : Bool :=
  (m.sender_id == viewer && m.recipients.contains other
     && m.message_type == "direct") ||
  (m.sender_id == other && m.recipients.contains viewer
     && m.message_type == "direct")

/-- The `order_by("created_at")` ordering. -/
def byCreated (a b : Message) : Prop :=
  a.created_at ≤ b.created_at

instance : DecidableRel byCreated := fun a b => Nat.decLe a.created_at b.created_at

/-- What `ORDER BY created_at` actually promises: some permutation of the
selected rows that is nondecreasing in `created_at`.  The query adds no
secondary sort key, so the order among rows with equal timestamps is
unspecified — any permutation satisfying this contract is an admissible
answer. -/
def isOrderByCreatedResult (l result : List Message) : Prop :=
  l.Perm result ∧ result.Pairwise byCreated

instance : IsTotal Message byCreated :=
  ⟨fun a b => Nat.le_total a.created_at b.created_at⟩

instance : IsTrans Message byCreated :=
  ⟨fun _ _ _ hab hbc => Nat.le_trans hab hbc⟩

/-- The deterministic order used by the embedding: one admissible result
of the `isOrderByCreatedResult` contract (a sort on `created_at`).  Only
the contract — not this particular choice of tie order — is guaranteed by
the source query. -/
def order_by_created (l : List Message) : List Message :=
  l.insertionSort byCreated

/-- The per-row mutation of the resolver's loop: a row of the result that
was not sent by the viewer and is unread is saved with `is_read = True`. -/
def loop_flip (viewer : Nat) (m : Message) : Message :=
  if !(m.sender_id == viewer) && !m.is_read then { m with is_read := true } else m

/-- The store-level effect of the resolver's loop: only rows of the result
set (those passing `conversationFilter`) are touched. -/
def conv_flip (viewer other : Nat) (m : Message) : Message :=
  if conversationFilter viewer other m then loop_flip viewer m else m

/-- One entry of the resolver's `messages` array (the fields the claims
rely on; `date` is a rendering of `created_at`, not modelled separately). -/
structure MessageView where
  id : Nat
  content : String
  sender_id : Nat
  initials : String
  avatar_color : String
  timestamp : Nat
  is_sent : Bool
  is_read : Bool
deriving Repr, DecidableEq

/-- The resolver's `other_user` summary (the fields the claims rely on;
`job_position` and `department` come from `EmployeeProfile`, untouched by
any claim). -/
structure UserSummary where
  id : Nat
  initials : String
  avatar_color : String
  is_online : Bool
deriving Repr, DecidableEq

/-- Result of `get_conversation_messages`: HTTP 404, or the payload. -/
inductive ConvResult where
  | notFound
  | success (messages : List MessageView) (other_user : UserSummary)
deriving Repr, DecidableEq

/-- `get_conversation_messages`: resolve the other user (404 when absent),
select both directions of the `direct` conversation ordered by creation
time, flip unread received rows to read while building the views, and
attach the other-user summary with its best-effort online flag. -/
def get_conversation_messages (br : Broker) (s : Store) (viewer other_id : Nat) :
    Store × ConvResult :=
  match getUser s other_id with
  | none => (s, .notFound)
  | some other =>
    let selected := order_by_created (s.messages.filter (conversationFilter viewer other_id))
    let views := selected.map (fun m =>
      let m' := loop_flip viewer m
      { id := m'.id
        content := m'.content
        sender_id := m'.sender_id
        initials := ((getUser s m'.sender_id).map user_initials).getD ""
        avatar_color := get_user_color m'.sender_id
        timestamp := m'.created_at
        is_sent := m'.sender_id == viewer
        is_read := m'.is_read })
    let s' := { s with messages := s.messages.map (conv_flip viewer other_id) }
    (s', .success views
      { id := other.id
        initials := user_initials other
        avatar_color := get_user_color other.id
        is_online := redis_exists br ("user_online_" ++ toString other.id) })

/-- Result of `send_message_api`: HTTP 400 (`Missing fields`), HTTP 404
(`Recipient not found`), or success with id and timestamp. -/
inductive SendResult where
  | missingFields
  | recipientNotFound
  | success (message_id : Nat) (timestamp : Nat)
deriving Repr, DecidableEq

/-- The dedup queryset condition of `send_message_api`: same sender,
identical (already trimmed) content, kind `direct`, created no earlier
than five seconds before `now`. -/
def dedupMatch (sender_id : Nat) (content : String) (now : Nat) (m : Message) : Bool :=
  m.sender_id == sender_id && m.content == content &&
    m.message_type == "direct" && now - 5 ≤ m.created_at

/-- The dedup-reuse mutation: append the recipient to the matched row's
recipient set only when not already attached. -/
def appendRecipient (rid mid : Nat) (m : Message) : Message :=
  if m.id == mid then
    if m.recipients.contains rid then m
    else { m with recipients := m.recipients ++ [rid] }
  else m

/-- `send_message_api`.  `recipient_id` is the raw JSON field (`none` when
absent; Python treats both `None` and `0` as falsy), `rawContent` is
trimmed first.  After validation and recipient lookup, a `direct` message
from this sender with identical content within the last five seconds is
reused (`first()` = lowest primary key); otherwise a new row is created
with the recipient attached.  Fanout is attempted either way. -/
def send_message_api (br : Broker) (s : Store) (sender : User)
    (recipient_id : Option Nat) (rawContent : String) (now : Nat) :
    (Store × SendResult) × List PubOutcome :=
  let content := py_strip rawContent
  if recipient_id.getD 0 == 0 || content == "" then
    ((s, .missingFields), [])
  else
    let rid := recipient_id.getD 0
    match getUser s rid with
    | none => ((s, .recipientNotFound), [])
    | some recipient =>
      match s.messages.find? (dedupMatch sender.id content now) with
      | some existing =>
        let s' := { s with messages := s.messages.map (appendRecipient rid existing.id) }
        ((s', .success existing.id existing.created_at),
         (publish_message br existing sender recipient).2)
      | none =>
        let m : Message :=
          { id := s.nextId
            sender_id := sender.id
            recipients := [rid]
            content := content
            message_type := "direct"
            is_read := false
            created_at := now }
        let s' := { s with messages := s.messages ++ [m], nextId := s.nextId + 1 }
        ((s', .success m.id m.created_at),
         (publish_message br m sender recipient).2)

/-- The bulk-update condition of `mark_as_read_api`. -/
def markPred (viewer sender_id : Nat) (m : Message) : Bool :=
  m.sender_id == sender_id && m.recipients.contains viewer &&
    !m.is_read && m.message_type == "direct"

/-- The row-level effect of the bulk `update(is_read=True)`. -/
def mark_flip (viewer user_id : Nat) (m : Message) : Message :=
  if markPred viewer user_id m then { m with is_read := true } else m

/-- `mark_as_read_api`: one filtered bulk update, no user lookup, always
`{"success": true}`. -/
def mark_as_read_api (s : Store) (viewer user_id : Nat) : Store × Bool :=
  ({ s with messages := s.messages.map (mark_flip viewer user_id) }, true)

/-- The unread-count queryset condition of `get_unread_count_api`. -/
def unreadPred (viewer : Nat) (m : Message) : Bool :=
  m.recipients.contains viewer && !m.is_read && m.message_type == "direct"

/-- `get_unread_count_api`: count of unread `direct` rows addressed to the
viewer; a pure read. -/
def get_unread_count_api (s : Store) (viewer : Nat) : Nat :=
  s.messages.countP (unreadPred viewer)

/-- The viewer's unread count restricted to one sender (the per-sender
reading of `getUnreadCount` used by the spec's read-state property). -/
def unread_from_sender (s : Store) (viewer sender_id : Nat) : Nat :=
  s.messages.countP (fun m => unreadPred viewer m && m.sender_id == sender_id)

/-- The initials computation in the words of the specification: first
letter of first name plus first letter of last name, uppercased, when both
are non-empty; otherwise the first two characters of the username,
uppercased.  Kept separate from `user_initials` (read off the code) so the
two can be compared. -/
def initials_spec (u : User) : String :=
  if u.first_name ≠ "" ∧ u.last_name ≠ "" then
    py_upper (u.first_name.take 1 ++ u.last_name.take 1)
  else
    py_upper (u.username.take 2)

/-! ### Concrete fixtures -/

/-- A user with both name parts non-empty. -/
def anaLee : User := { id := 1, first_name := "Ana", last_name := "Lee", username := "analee" }

/-- A user with empty name parts. -/
def jdoe : User := { id := 2, first_name := "", last_name := "", username := "jdoe" }

/-- A second distinct recipient. -/
def dali : User := { id := 4, first_name := "", last_name := "", username := "dv" }

/-- A user who messaged themselves. -/
def cara : User := { id := 3, first_name := "C", last_name := "D", username := "cd" }

/-- A broker whose start-up connection failed. -/
def downBroker : Broker := { available := false, keyProbe := fun _ => .error, publishRaises := true }

/-- A healthy broker. -/
def upBroker : Broker := { available := true, keyProbe := fun _ => .ok true, publishRaises := false }

/-- An unread direct message from user 1 to user 2 created at `t = 10`. -/
def hiMsg : Message :=
  { id := 0
    sender_id := 1
    recipients := [2]
    content := "hi"
    message_type := "direct"
    is_read := false
    created_at := 10 }

/-- Users 1, 2 and 4, and the single `hiMsg` row. -/
def hiStore : Store := { users := [anaLee, jdoe, dali], messages := [hiMsg], nextId := 1 }

/-- An unread direct self-message of user 3. -/
def selfMsg : Message :=
  { id := 0
    sender_id := 3
    recipients := [3]
    content := "note"
    message_type := "direct"
    is_read := false
    created_at := 10 }

/-- The store around the self-message. -/
def selfStore : Store := { users := [cara], messages := [selfMsg], nextId := 1 }

/-- A store with users but no messages. -/
def emptyStore : Store := { users := [anaLee, jdoe, dali], messages := [], nextId := 0 }

/-- First of two direct messages from user 1 to user 2 sharing one
timestamp. -/
def tieMsg0 : Message :=
  { id := 0
    sender_id := 1
    recipients := [2]
    content := "one"
    message_type := "direct"
    is_read := false
    created_at := 10 }

/-- Second message with the same timestamp as `tieMsg0` but a larger id. -/
def tieMsg1 : Message :=
  { id := 1
    sender_id := 1
    recipients := [2]
    content := "two"
    message_type := "direct"
    is_read := false
    created_at := 10 }

/-- A store holding the equal-timestamp pair. -/
def tieStore : Store := { users := [anaLee, jdoe], messages := [tieMsg0, tieMsg1], nextId := 2 }

/-- The view of `tieMsg0` as produced for viewer 2. -/
def tieView0 : MessageView :=
  { id := 0
    content := "one"
    sender_id := 1
    initials := "AL"
    avatar_color := "bg-dark-cyan"
    timestamp := 10
    is_sent := false
    is_read := true }

/-- The view of `tieMsg1` as produced for viewer 2. -/
def tieView1 : MessageView :=
  { id := 1
    content := "two"
    sender_id := 1
    initials := "AL"
    avatar_color := "bg-dark-cyan"
    timestamp := 10
    is_sent := false
    is_read := true }

/-- The view of `hiMsg` as produced for viewer 2 (read flag flipped). -/
def hiView : MessageView :=
  { id := 0
    content := "hi"
    sender_id := 1
    initials := "AL"
    avatar_color := "bg-dark-cyan"
    timestamp := 10
    is_sent := false
    is_read := true }

/-- The `other_user` summary of user 1 with the broker down. -/
def hiSummary : UserSummary :=
  { id := 1, initials := "AL", avatar_color := "bg-dark-cyan", is_online := false }

/-! ### Basic facts about the row-level mutations -/

theorem markPred_flipped (viewer uid : Nat) (m : Message) :
    markPred viewer uid { m with is_read := true } = false := by
  unfold markPred
  simp

theorem mark_flip_idem (viewer uid : Nat) (m : Message) :
    mark_flip viewer uid (mark_flip viewer uid m) = mark_flip viewer uid m := by
  unfold mark_flip
  by_cases h : markPred viewer uid m = true
  · rw [if_pos h, if_neg (by simp [markPred_flipped])]
  · rw [if_neg h, if_neg h]

@[simp] theorem loop_flip_id (viewer : Nat) (m : Message) :
    (loop_flip viewer m).id = m.id := by
  unfold loop_flip; split <;> rfl

@[simp] theorem loop_flip_sender (viewer : Nat) (m : Message) :
    (loop_flip viewer m).sender_id = m.sender_id := by
  unfold loop_flip; split <;> rfl

@[simp] theorem loop_flip_recipients (viewer : Nat) (m : Message) :
    (loop_flip viewer m).recipients = m.recipients := by
  unfold loop_flip; split <;> rfl

@[simp] theorem loop_flip_type (viewer : Nat) (m : Message) :
    (loop_flip viewer m).message_type = m.message_type := by
  unfold loop_flip; split <;> rfl

@[simp] theorem loop_flip_created (viewer : Nat) (m : Message) :
    (loop_flip viewer m).created_at = m.created_at := by
  unfold loop_flip; split <;> rfl

@[simp] theorem conv_flip_id (viewer other : Nat) (m : Message) :
    (conv_flip viewer other m).id = m.id := by
  unfold conv_flip; split <;> simp

@[simp] theorem conv_flip_sender (viewer other : Nat) (m : Message) :
    (conv_flip viewer other m).sender_id = m.sender_id := by
  unfold conv_flip; split <;> simp

@[simp] theorem conv_flip_recipients (viewer other : Nat) (m : Message) :
    (conv_flip viewer other m).recipients = m.recipients := by
  unfold conv_flip; split <;> simp

@[simp] theorem conv_flip_type (viewer other : Nat) (m : Message) :
    (conv_flip viewer other m).message_type = m.message_type := by
  unfold conv_flip; split <;> simp

@[simp] theorem conv_flip_created (viewer other : Nat) (m : Message) :
    (conv_flip viewer other m).created_at = m.created_at := by
  unfold conv_flip; split <;> simp

theorem appendRecipient_id (rid mid : Nat) (m : Message) :
    (appendRecipient rid mid m).id = m.id := by
  unfold appendRecipient
  split
  · split <;> rfl
  · rfl

/-! ### C6 and C10: the read-state tracker -/

/-- C6: `markRead` is idempotent — for every viewer, other user and store,
calling `mark_as_read_api` twice in a row yields the same final store
(and response) as calling it once. -/
theorem C6_mark_read_idempotent (s : Store) (viewer user_id : Nat) :
    mark_as_read_api (mark_as_read_api s viewer user_id).1 viewer user_id =
      mark_as_read_api s viewer user_id := by
  have hmm : s.messages.map (mark_flip viewer user_id ∘ mark_flip viewer user_id)
      = s.messages.map (mark_flip viewer user_id) :=
    List.map_congr_left (fun m _ => mark_flip_idem viewer user_id m)
  unfold mark_as_read_api
  rw [List.map_map, hmm]

/-- C10: `markRead` performs no user lookup: for any viewer and any target
user id — including one referencing no existing user — it answers success
(there is no NotFound branch), and when no unread `direct` row from that
sender to the viewer exists the store is left unchanged. -/
theorem C10_mark_read_total (s : Store) (viewer user_id : Nat) :
    (mark_as_read_api s viewer user_id).2 = true ∧
    ((∀ m ∈ s.messages, markPred viewer user_id m = false) →
      (mark_as_read_api s viewer user_id).1 = s) := by
  refine ⟨rfl, fun h => ?_⟩
  unfold mark_as_read_api
  have hmap : s.messages.map (mark_flip viewer user_id) = s.messages := by
    calc s.messages.map (mark_flip viewer user_id) = s.messages.map id :=
          List.map_congr_left (fun m hm => by simp [mark_flip, h m hm])
      _ = s.messages := List.map_id _
  rw [hmap]

/-- Witness for C10: user 99 does not exist in `hiStore`, no unread direct
row from 99 to viewer 2 exists, and the call still answers success and
leaves the store alone. -/
theorem C10_mark_read_total_witness :
    getUser hiStore 99 = none ∧
    (∀ m ∈ hiStore.messages, markPred 2 99 m = false) ∧
    ((mark_as_read_api hiStore 2 99).2 = true ∧
      ((∀ m ∈ hiStore.messages, markPred 2 99 m = false) →
        (mark_as_read_api hiStore 2 99).1 = hiStore)) :=
  ⟨by decide, by decide, C10_mark_read_total hiStore 2 99⟩

/-! ### C7: the initials string -/

theorem user_initials_eq_spec (u : User) : user_initials u = initials_spec u := by
  unfold user_initials initials_spec
  by_cases h1 : u.first_name = "" <;> by_cases h2 : u.last_name = "" <;>
    simp [h1, h2, String.isEmpty_iff]

/-- C7: every initials string placed in a conversation message view, in the
other-user summary and in the fanout payload equals the uppercased first
letters of first and last name when both are non-empty, and the uppercased
first two characters of the username otherwise (`initials_spec`); in
particular "Ana"/"Lee" gives "AL" and empty names with username "jdoe"
give "JD". -/
theorem C7_initials (br : Broker) (s : Store) (viewer other_id : Nat)
    (other u : User) (views : List MessageView) (ou : UserSummary) (v : MessageView)
    (hother : getUser s other_id = some other)
    (hconv : (get_conversation_messages br s viewer other_id).2 = .success views ou)
    (hv : v ∈ views) (hu : getUser s v.sender_id = some u) :
    v.initials = initials_spec u ∧
    ou.initials = initials_spec other ∧
    (∀ m sender recipient,
      (publish_message br m sender recipient).1.initials = initials_spec sender) ∧
    user_initials anaLee = "AL" ∧
    user_initials jdoe = "JD" := by
  simp only [get_conversation_messages, hother] at hconv
  injection hconv with hviews hou
  subst hviews hou
  refine ⟨?_, ?_, ?_, by decide, by decide⟩
  · obtain ⟨m, hm, rfl⟩ := List.mem_map.1 hv
    simp only at hu ⊢
    rw [hu]
    simp [user_initials_eq_spec]
  · simp [user_initials_eq_spec]
  · intro m sender recipient
    simp [publish_message, user_initials_eq_spec]

/-- Witness for C7: concrete conversation between users 2 and 1 of
`hiStore`; the produced view carries initials "AL". -/
theorem C7_initials_witness :
    getUser hiStore 1 = some anaLee ∧
    (get_conversation_messages downBroker hiStore 2 1).2 =
      ConvResult.success [hiView] hiSummary ∧
    hiView ∈ [hiView] ∧
    getUser hiStore hiView.sender_id = some anaLee ∧
    initials_spec anaLee = "AL" ∧
    hiView.initials = initials_spec anaLee :=
  ⟨by decide, by decide, by decide, by decide, by decide,
   (C7_initials downBroker hiStore 2 1 anaLee anaLee [hiView] hiSummary hiView
      (by decide) (by decide) (by decide) (by decide)).1⟩

/-! ### C9: broker failure is invisible to callers -/

/-- C9: pub/sub unavailability (or any raised exception) never surfaces:
the store and the caller-visible send result do not depend on the broker
at all, a valid send still answers success with the persisted id and
timestamp, and the resolver answers success reporting the other user as
offline instead of failing. -/
theorem C9_broker_invisible (br br2 : Broker) (s : Store) (sender other : User)
    (recipient_id : Option Nat) (raw : String) (now viewer other_id : Nat)
    (hdown : br.available = false)
    (hother : getUser s other_id = some other) :
    (send_message_api br s sender recipient_id raw now).1 =
      (send_message_api br2 s sender recipient_id raw now).1 ∧
    (∀ r, recipient_id.getD 0 ≠ 0 → py_strip raw ≠ "" →
      getUser s (recipient_id.getD 0) = some r →
      ∃ mid ts, (send_message_api br s sender recipient_id raw now).1.2 =
        SendResult.success mid ts) ∧
    (∃ views, (get_conversation_messages br s viewer other_id).2 =
      ConvResult.success views
        { id := other.id, initials := user_initials other,
          avatar_color := get_user_color other.id, is_online := false }) := by
  refine ⟨?_, ?_, ?_⟩
  · by_cases hval : (recipient_id.getD 0 == 0 || py_strip raw == "") = true
    · simp only [send_message_api, hval, if_true]
    · cases hg : getUser s (recipient_id.getD 0) with
      | none => simp only [send_message_api, hval, if_false, Bool.false_eq_true, hg]
      | some r =>
        cases hf : s.messages.find? (dedupMatch sender.id (py_strip raw) now) with
        | none => simp only [send_message_api, hval, if_false, Bool.false_eq_true, hg, hf]
        | some m0 => simp only [send_message_api, hval, if_false, Bool.false_eq_true, hg, hf]
  · intro r h0 hc hg
    have hval : (recipient_id.getD 0 == 0 || py_strip raw == "") = false := by
      simp [h0, hc]
    cases hf : s.messages.find? (dedupMatch sender.id (py_strip raw) now) with
    | none =>
      refine ⟨s.nextId, now, ?_⟩
      simp only [send_message_api, hval, if_false, Bool.false_eq_true, hg, hf]
    | some m0 =>
      refine ⟨m0.id, m0.created_at, ?_⟩
      simp only [send_message_api, hval, if_false, Bool.false_eq_true, hg, hf]
  · have hre : ∀ k, redis_exists br k = false := by
      intro k; simp [redis_exists, hdown]
    simp only [get_conversation_messages, hother, hre]
    exact ⟨_, rfl⟩

/-- Witness for C9: a dead broker against a healthy one on `hiStore`. -/
theorem C9_broker_invisible_witness :
    downBroker.available = false ∧
    getUser hiStore 1 = some anaLee ∧
    ((send_message_api downBroker hiStore anaLee (some 2) "hi" 12).1 =
      (send_message_api upBroker hiStore anaLee (some 2) "hi" 12).1 ∧
    (∀ r, (some 2).getD 0 ≠ 0 → py_strip "hi" ≠ "" →
      getUser hiStore ((some 2).getD 0) = some r →
      ∃ mid ts, (send_message_api downBroker hiStore anaLee (some 2) "hi" 12).1.2 =
        SendResult.success mid ts) ∧
    (∃ views, (get_conversation_messages downBroker hiStore 2 1).2 =
      ConvResult.success views
        { id := anaLee.id, initials := user_initials anaLee,
          avatar_color := get_user_color anaLee.id, is_online := false })) :=
  ⟨rfl, by decide,
   C9_broker_invisible downBroker upBroker hiStore anaLee anaLee (some 2) "hi" 12 2 1
     rfl (by decide)⟩

/-! ### C3: conversation symmetry -/

theorem conversationFilter_comm (x y : Nat) (m : Message) :
    conversationFilter x y m = conversationFilter y x m := by
  unfold conversationFilter
  exact Bool.or_comm _ _

/-- C3: for two existing users, `getConversation(A,B)` and
`getConversation(B,A)` both succeed and select the same `direct` messages
in the same chronological order (equal id sequences). -/
theorem C3_conversation_symmetric (br : Broker) (s : Store) (aid bid : Nat) (a b : User)
    (ha : getUser s aid = some a) (hb : getUser s bid = some b) :
    ∃ viewsAB ouB viewsBA ouA,
      (get_conversation_messages br s aid bid).2 = ConvResult.success viewsAB ouB ∧
      (get_conversation_messages br s bid aid).2 = ConvResult.success viewsBA ouA ∧
      viewsAB.map (fun v => v.id) = viewsBA.map (fun v => v.id) := by
  simp only [get_conversation_messages, hb, ha]
  refine ⟨_, _, _, _, rfl, rfl, ?_⟩
  rw [List.map_map, List.map_map]
  have hfil : s.messages.filter (conversationFilter aid bid) =
      s.messages.filter (conversationFilter bid aid) :=
    List.filter_congr (fun m _ => conversationFilter_comm aid bid m)
  rw [hfil]
  refine List.map_congr_left (fun m _ => ?_)
  simp

/-- Witness for C3: users 1 and 2 of `hiStore`. -/
theorem C3_conversation_symmetric_witness :
    getUser hiStore 1 = some anaLee ∧
    getUser hiStore 2 = some jdoe ∧
    (∃ viewsAB ouB viewsBA ouA,
      (get_conversation_messages downBroker hiStore 1 2).2 = ConvResult.success viewsAB ouB ∧
      (get_conversation_messages downBroker hiStore 2 1).2 = ConvResult.success viewsBA ouA ∧
      viewsAB.map (fun v => v.id) = viewsBA.map (fun v => v.id)) :=
  ⟨by decide, by decide,
   C3_conversation_symmetric downBroker hiStore 1 2 anaLee jdoe (by decide) (by decide)⟩

/-! ### C4: conversation ordering -/

/-- Counterexample to C4 as stated: the source orders the conversation by
`created_at` alone, with no secondary sort key, so the database may return
rows with equal timestamps in any order.  For the conversation queryset of
`tieStore` — the rows `tieMsg0` (id 0) and `tieMsg1` (id 1), both created
at `t = 10` — the list `[tieMsg1, tieMsg0]` satisfies the `ORDER BY`
contract yet presents the equal-timestamp pair in descending identifier
order, refuting the claimed tie-break. -/
theorem C4_counterexample :
    tieStore.messages.filter (conversationFilter 2 1) = [tieMsg0, tieMsg1] ∧
    isOrderByCreatedResult [tieMsg0, tieMsg1] [tieMsg1, tieMsg0] ∧
    tieMsg1.created_at = tieMsg0.created_at ∧
    tieMsg0.id < tieMsg1.id ∧
    tieMsg0 ≠ tieMsg1 := by
  refine ⟨by decide, ⟨List.Perm.swap tieMsg1 tieMsg0 [], by decide⟩, by decide,
    by decide, by decide⟩

/-- C4 amended: the conversation listing is sorted by creation time
ascending; the order among messages with equal creation time is left
unspecified by the source query (no identifier tie-break is guaranteed).
The embedding's deterministic order is one admissible result of the
`ORDER BY` contract. -/
theorem C4_conversation_sorted_amended (br : Broker) (s : Store) (viewer other_id : Nat)
    (other : User) (views : List MessageView) (ou : UserSummary)
    (hother : getUser s other_id = some other)
    (hconv : (get_conversation_messages br s viewer other_id).2 = .success views ou) :
    views.Pairwise (fun v w => v.timestamp ≤ w.timestamp) ∧
    isOrderByCreatedResult (s.messages.filter (conversationFilter viewer other_id))
      (order_by_created (s.messages.filter (conversationFilter viewer other_id))) := by
  constructor
  · simp only [get_conversation_messages, hother] at hconv
    injection hconv with hviews hou
    subst hviews
    rw [List.pairwise_map]
    have hs := List.sorted_insertionSort byCreated
      (s.messages.filter (conversationFilter viewer other_id))
    refine List.Pairwise.imp ?_ hs
    intro m n hmn
    simpa [byCreated] using hmn
  · exact ⟨(List.perm_insertionSort byCreated _).symm, List.sorted_insertionSort byCreated _⟩

/-- Witness for the amended C4: viewer 2 fetches the equal-timestamp
conversation of `tieStore`. -/
theorem C4_conversation_sorted_amended_witness :
    getUser tieStore 1 = some anaLee ∧
    (get_conversation_messages downBroker tieStore 2 1).2 =
      ConvResult.success [tieView0, tieView1] hiSummary ∧
    ([tieView0, tieView1].Pairwise (fun v w => v.timestamp ≤ w.timestamp) ∧
      isOrderByCreatedResult (tieStore.messages.filter (conversationFilter 2 1))
        (order_by_created (tieStore.messages.filter (conversationFilter 2 1)))) :=
  ⟨by decide, by decide,
   C4_conversation_sorted_amended downBroker tieStore 2 1 anaLee [tieView0, tieView1]
     hiSummary (by decide) (by decide)⟩

/-! ### C5: the read-state side effect of the resolver -/

theorem conv_flip_reads (bid aid : Nat) (m : Message) (hne : aid ≠ bid)
    (ht : m.message_type = "direct") (hs : m.sender_id = aid)
    (hr : m.recipients.contains bid = true) :
    (conv_flip bid aid m).is_read = true := by
  have hrm : bid ∈ m.recipients := by simpa using hr
  have hfil : conversationFilter bid aid m = true := by
    simp [conversationFilter, hs, ht, hrm]
  unfold conv_flip
  rw [if_pos hfil]
  unfold loop_flip
  have hsb : (m.sender_id == bid) = false := by simp [hs, hne]
  cases hread : m.is_read
  · rw [if_pos (by simp [hsb, hread])]
  · rw [if_neg (by simp [hread])]
    exact hread

/-- Counterexample to C5 as stated: the claim quantifies over every viewer
B and existing user A, so it also covers A = B.  For the self-conversation
of user 3 (an unread direct self-message), the resolver flips nothing —
the row counts as "sent" by the viewer — and the per-sender unread count
afterwards is 1, not 0. -/
theorem C5_counterexample :
    getUser selfStore 3 = some cara ∧
    unread_from_sender (get_conversation_messages downBroker selfStore 3 3).1 3 3 = 1 := by
  decide

/-- C5 amended: for every viewer B and existing user A **distinct from
B**, after `getConversation(B, A)` every stored `direct` message from A
addressed to B has its read flag set, and B's unread count restricted to
sender A is zero. -/
theorem C5_read_flip_amended (br : Broker) (s : Store) (bid aid : Nat) (a : User)
    (ha : getUser s aid = some a) (hne : aid ≠ bid) :
    (∀ m ∈ (get_conversation_messages br s bid aid).1.messages,
        m.message_type = "direct" → m.sender_id = aid →
        m.recipients.contains bid = true → m.is_read = true) ∧
    unread_from_sender (get_conversation_messages br s bid aid).1 bid aid = 0 := by
  simp only [get_conversation_messages, ha]
  constructor
  · intro m' hm' ht hs hr
    obtain ⟨m, hm, rfl⟩ := List.mem_map.1 hm'
    simp only [conv_flip_type] at ht
    simp only [conv_flip_sender] at hs
    simp only [conv_flip_recipients] at hr
    exact conv_flip_reads bid aid m hne ht hs hr
  · unfold unread_from_sender
    rw [List.countP_map]
    refine List.countP_eq_zero.mpr ?_
    intro m hm
    simp only [Function.comp_apply, Bool.not_eq_true]
    by_cases hs : m.sender_id = aid
    · by_cases hr : m.recipients.contains bid = true
      · by_cases ht : m.message_type = "direct"
        · have hread := conv_flip_reads bid aid m hne ht hs hr
          simp [unreadPred, hread]
        · simp [unreadPred, conv_flip_type, ht]
      · simp [unreadPred, conv_flip_recipients, hr]
        intro hmem
        exact absurd (by simpa using hmem) hr
    · simp [conv_flip_sender, hs]

/-- Witness for the amended C5: viewer 2 opens the conversation with user
1 in `hiStore`. -/
theorem C5_read_flip_amended_witness :
    getUser hiStore 1 = some anaLee ∧ (1 : Nat) ≠ 2 ∧
    ((∀ m ∈ (get_conversation_messages downBroker hiStore 2 1).1.messages,
        m.message_type = "direct" → m.sender_id = 1 →
        m.recipients.contains 2 = true → m.is_read = true) ∧
      unread_from_sender (get_conversation_messages downBroker hiStore 2 1).1 2 1 = 0) :=
  ⟨by decide, by decide,
   C5_read_flip_amended downBroker hiStore 2 1 anaLee (by decide) (by decide)⟩

/-! ### C2: unread-count effect of a send -/

/-- Counterexample to C2 as stated: the claim quantifies over every state,
so it also covers a state where the dedup window already holds an
identical `direct` "hi" from A with B attached.  In `hiStore` (user 1 sent
"hi" to user 2 at t = 10, unread), a second send at t = 12 succeeds but
reuses row 0: user 2's unread count stays 1 instead of increasing to 2. -/
theorem C2_unread_counterexample :
    getUser hiStore 2 = some jdoe ∧ (1 : Nat) ≠ 2 ∧
    (send_message_api downBroker hiStore anaLee (some 2) "hi" 12).1.2 =
      SendResult.success 0 10 ∧
    get_unread_count_api hiStore 2 = 1 ∧
    get_unread_count_api (send_message_api downBroker hiStore anaLee (some 2) "hi" 12).1.1 2 = 1 := by
  decide

/-- C2 amended: for distinct users A and B and any state holding **no
`direct` "hi" from A within the 5-second dedup window**, a successful
`sendDirectMessage(A, B, "hi")` raises B's unread count by exactly one and
leaves A's unchanged. -/
theorem C2_unread_amended (br : Broker) (s : Store) (a b : User) (now : Nat)
    (hb : getUser s b.id = some b) (hb0 : b.id ≠ 0) (hne : a.id ≠ b.id)
    (hfresh : ∀ m ∈ s.messages, dedupMatch a.id "hi" now m = false) :
    (send_message_api br s a (some b.id) "hi" now).1.2 = SendResult.success s.nextId now ∧
    get_unread_count_api (send_message_api br s a (some b.id) "hi" now).1.1 b.id =
      get_unread_count_api s b.id + 1 ∧
    get_unread_count_api (send_message_api br s a (some b.id) "hi" now).1.1 a.id =
      get_unread_count_api s a.id := by
  have hstrip : py_strip "hi" = "hi" := by decide
  have hb0' : (b.id == 0) = false := by simp [hb0]
  have hhi : (("hi" : String) == "") = false := by decide
  have hfind : s.messages.find? (dedupMatch a.id "hi" now) = none :=
    List.find?_eq_none.mpr (fun m hm => by simp [hfresh m hm])
  simp only [send_message_api, Option.getD_some, hstrip, hb0', hhi, Bool.or_self,
    Bool.false_eq_true, if_false, hb, hfind]
  refine ⟨trivial, ?_, ?_⟩
  · unfold get_unread_count_api
    rw [List.countP_append]
    simp [unreadPred]
  · unfold get_unread_count_api
    rw [List.countP_append]
    simp [unreadPred]
    exact hne

/-- Witness for the amended C2: user 1 sends "hi" to user 2 in the empty
store. -/
theorem C2_unread_amended_witness :
    getUser emptyStore 2 = some jdoe ∧ (2 : Nat) ≠ 0 ∧ anaLee.id ≠ jdoe.id ∧
    (∀ m ∈ emptyStore.messages, dedupMatch anaLee.id "hi" 12 m = false) ∧
    ((send_message_api downBroker emptyStore anaLee (some jdoe.id) "hi" 12).1.2 =
      SendResult.success emptyStore.nextId 12 ∧
    get_unread_count_api
        (send_message_api downBroker emptyStore anaLee (some jdoe.id) "hi" 12).1.1 jdoe.id =
      get_unread_count_api emptyStore jdoe.id + 1 ∧
    get_unread_count_api
        (send_message_api downBroker emptyStore anaLee (some jdoe.id) "hi" 12).1.1 anaLee.id =
      get_unread_count_api emptyStore anaLee.id) :=
  ⟨by decide, by decide, by decide, by decide,
   C2_unread_amended downBroker emptyStore anaLee jdoe 12
     (by decide) (by decide) (by decide) (by decide)⟩

/-! ### C8: error classification of send and conversation fetch -/

/-- Counterexample to C8 as stated: the validation check runs first and
covers both fields.  With a nonexistent recipient 99 **and** blank
content, the send fails with the validation error, not NotFound — so
"NotFound exactly when the recipient does not exist" is false; and with a
missing recipient id and non-empty content it also fails with the
validation error — so "validation error exactly when the content trims
empty" is false as well. -/
theorem C8_error_counterexample :
    getUser hiStore 99 = none ∧
    (send_message_api downBroker hiStore anaLee (some 99) "   " 10).1.2 =
      SendResult.missingFields ∧
    py_strip "hi" ≠ "" ∧
    (send_message_api downBroker hiStore anaLee none "hi" 10).1.2 =
      SendResult.missingFields := by
  decide

/-- C8 amended: the send fails with the validation error exactly when the
recipient id is absent/zero or the content trims empty; it fails with
NotFound exactly when it passes that validation and the recipient id
references no user; the conversation fetch fails with NotFound exactly
when the other user id references no user; and every failure leaves the
store untouched. -/
theorem C8_error_amended (br : Broker) (s : Store) (sender : User)
    (recipient_id : Option Nat) (raw : String) (now viewer other_id : Nat) :
    ((send_message_api br s sender recipient_id raw now).1.2 = SendResult.missingFields ↔
      recipient_id.getD 0 = 0 ∨ py_strip raw = "") ∧
    ((send_message_api br s sender recipient_id raw now).1.2 = SendResult.recipientNotFound ↔
      recipient_id.getD 0 ≠ 0 ∧ py_strip raw ≠ "" ∧ getUser s (recipient_id.getD 0) = none) ∧
    (((send_message_api br s sender recipient_id raw now).1.2 = SendResult.missingFields ∨
      (send_message_api br s sender recipient_id raw now).1.2 = SendResult.recipientNotFound) →
      (send_message_api br s sender recipient_id raw now).1.1 = s) ∧
    ((get_conversation_messages br s viewer other_id).2 = ConvResult.notFound ↔
      getUser s other_id = none) ∧
    ((get_conversation_messages br s viewer other_id).2 = ConvResult.notFound →
      (get_conversation_messages br s viewer other_id).1 = s) := by
  have hconvPart :
      ((get_conversation_messages br s viewer other_id).2 = ConvResult.notFound ↔
        getUser s other_id = none) ∧
      ((get_conversation_messages br s viewer other_id).2 = ConvResult.notFound →
        (get_conversation_messages br s viewer other_id).1 = s) := by
    cases hg : getUser s other_id with
    | none => simp [get_conversation_messages, hg]
    | some o => simp [get_conversation_messages, hg]
  by_cases hval : (recipient_id.getD 0 == 0 || py_strip raw == "") = true
  · have hdisj : recipient_id.getD 0 = 0 ∨ py_strip raw = "" := by simpa using hval
    have hres : (send_message_api br s sender recipient_id raw now).1.2 =
        SendResult.missingFields := by
      simp only [send_message_api, hval, if_true]
    have hstore : (send_message_api br s sender recipient_id raw now).1.1 = s := by
      simp only [send_message_api, hval, if_true]
    refine ⟨?_, ?_, fun _ => hstore, hconvPart.1, hconvPart.2⟩
    · rw [hres]; exact iff_of_true rfl hdisj
    · rw [hres]
      refine iff_of_false (fun h => SendResult.noConfusion h) ?_
      rintro ⟨hh0, hhc, -⟩
      rcases hdisj with h | h
      · exact absurd h hh0
      · exact absurd h hhc
  · have hval' : (recipient_id.getD 0 == 0 || py_strip raw == "") = false := by
      simpa using hval
    have h0 : recipient_id.getD 0 ≠ 0 := by intro h; apply hval; simp [h]
    have hc : py_strip raw ≠ "" := by intro h; apply hval; simp [h]
    cases hg : getUser s (recipient_id.getD 0) with
    | none =>
      have hres : (send_message_api br s sender recipient_id raw now).1.2 =
          SendResult.recipientNotFound := by
        simp only [send_message_api, hval', Bool.false_eq_true, if_false, hg]
      have hstore : (send_message_api br s sender recipient_id raw now).1.1 = s := by
        simp only [send_message_api, hval', Bool.false_eq_true, if_false, hg]
      refine ⟨?_, ?_, fun _ => hstore, hconvPart.1, hconvPart.2⟩
      · rw [hres]
        refine iff_of_false (fun h => SendResult.noConfusion h) ?_
        rintro (h | h)
        · exact absurd h h0
        · exact absurd h hc
      · rw [hres]; exact iff_of_true rfl ⟨h0, hc, rfl⟩
    | some r =>
      have hsucc : ∃ mid ts, (send_message_api br s sender recipient_id raw now).1.2 =
          SendResult.success mid ts := by
        cases hf : s.messages.find? (dedupMatch sender.id (py_strip raw) now) with
        | some m0 =>
          exact ⟨m0.id, m0.created_at,
            by simp only [send_message_api, hval', Bool.false_eq_true, if_false, hg, hf]⟩
        | none =>
          exact ⟨s.nextId, now,
            by simp only [send_message_api, hval', Bool.false_eq_true, if_false, hg, hf]⟩
      obtain ⟨mid, ts, hres⟩ := hsucc
      refine ⟨?_, ?_, ?_, hconvPart.1, hconvPart.2⟩
      · rw [hres]
        refine iff_of_false (fun h => SendResult.noConfusion h) ?_
        rintro (h | h)
        · exact absurd h h0
        · exact absurd h hc
      · rw [hres]
        refine iff_of_false (fun h => SendResult.noConfusion h) ?_
        rintro ⟨-, -, hgg⟩
        exact Option.noConfusion hgg
      · intro h
        rw [hres] at h
        rcases h with h | h <;> exact SendResult.noConfusion h

/-- Witness for the amended C8 at a concrete failing input: recipient 99
does not exist in `hiStore` and the content is non-empty. -/
theorem C8_error_amended_witness :
    (((send_message_api downBroker hiStore anaLee (some 99) "hi" 10).1.2 =
        SendResult.missingFields ↔
      (some 99 : Option Nat).getD 0 = 0 ∨ py_strip "hi" = "") ∧
    ((send_message_api downBroker hiStore anaLee (some 99) "hi" 10).1.2 =
        SendResult.recipientNotFound ↔
      (some 99 : Option Nat).getD 0 ≠ 0 ∧ py_strip "hi" ≠ "" ∧
        getUser hiStore ((some 99 : Option Nat).getD 0) = none) ∧
    (((send_message_api downBroker hiStore anaLee (some 99) "hi" 10).1.2 =
        SendResult.missingFields ∨
      (send_message_api downBroker hiStore anaLee (some 99) "hi" 10).1.2 =
        SendResult.recipientNotFound) →
      (send_message_api downBroker hiStore anaLee (some 99) "hi" 10).1.1 = hiStore) ∧
    ((get_conversation_messages downBroker hiStore 1 99).2 = ConvResult.notFound ↔
      getUser hiStore 99 = none) ∧
    ((get_conversation_messages downBroker hiStore 1 99).2 = ConvResult.notFound →
      (get_conversation_messages downBroker hiStore 1 99).1 = hiStore)) :=
  C8_error_amended downBroker hiStore anaLee (some 99) "hi" 10 1 99

/-! ### C1: the dedup window -/

/-- C1: for a valid send (existing recipient, non-empty trimmed content),
when a `direct` message from the same sender with identical trimmed
content exists within the last 5 seconds, no new row is created — the
first such row is reused, its id and timestamp are returned, and the
recipient is appended to its recipient set only if not already attached —
while if every identical-content message is older than the window a new
distinct row (fresh id, the new timestamp, just this recipient) is
appended. -/
theorem C1_dedup_window (br : Broker) (s : Store) (sender recipient : User)
    (raw : String) (now rid : Nat)
    (hrid : rid ≠ 0) (hr : getUser s rid = some recipient)
    (hc : py_strip raw ≠ "") :
    (∀ m0, s.messages.find? (dedupMatch sender.id (py_strip raw) now) = some m0 →
      m0 ∈ s.messages ∧
      (send_message_api br s sender (some rid) raw now).1.2 =
        SendResult.success m0.id m0.created_at ∧
      (send_message_api br s sender (some rid) raw now).1.1.messages =
        s.messages.map (appendRecipient rid m0.id) ∧
      (send_message_api br s sender (some rid) raw now).1.1.messages.map (fun m => m.id) =
        s.messages.map (fun m => m.id) ∧
      (appendRecipient rid m0.id m0).recipients =
        (if m0.recipients.contains rid then m0.recipients else m0.recipients ++ [rid])) ∧
    (s.messages.find? (dedupMatch sender.id (py_strip raw) now) = none →
      (send_message_api br s sender (some rid) raw now).1.1.messages =
        s.messages ++ [{ id := s.nextId, sender_id := sender.id, recipients := [rid],
                         content := py_strip raw, message_type := "direct",
                         is_read := false, created_at := now }] ∧
      (send_message_api br s sender (some rid) raw now).1.2 =
        SendResult.success s.nextId now) := by
  have hval : ((rid == 0) || (py_strip raw == "")) = false := by simp [hrid, hc]
  constructor
  · intro m0 hf
    refine ⟨List.mem_of_find?_eq_some hf, ?_, ?_, ?_, ?_⟩
    · simp only [send_message_api, Option.getD_some, hval, Bool.false_eq_true, if_false, hr, hf]
    · simp only [send_message_api, Option.getD_some, hval, Bool.false_eq_true, if_false, hr, hf]
    · simp only [send_message_api, Option.getD_some, hval, Bool.false_eq_true, if_false, hr, hf]
      rw [List.map_map]
      exact List.map_congr_left (fun m _ => appendRecipient_id rid m0.id m)
    · unfold appendRecipient
      rw [if_pos (by simp)]
      split <;> rfl
  · intro hf
    constructor
    · simp only [send_message_api, Option.getD_some, hval, Bool.false_eq_true, if_false, hr, hf]
    · simp only [send_message_api, Option.getD_some, hval, Bool.false_eq_true, if_false, hr, hf]

/-- Witness for C1: a retried "hi" from user 1 at `t = 12` targeting the
distinct recipient 4, with the identical row `hiMsg` created at `t = 10`
inside the window. -/
theorem C1_dedup_window_witness :
    (4 : Nat) ≠ 0 ∧ getUser hiStore 4 = some dali ∧ py_strip "hi" ≠ "" ∧
    hiStore.messages.find? (dedupMatch anaLee.id (py_strip "hi") 12) = some hiMsg ∧
    ((∀ m0, hiStore.messages.find? (dedupMatch anaLee.id (py_strip "hi") 12) = some m0 →
      m0 ∈ hiStore.messages ∧
      (send_message_api downBroker hiStore anaLee (some 4) "hi" 12).1.2 =
        SendResult.success m0.id m0.created_at ∧
      (send_message_api downBroker hiStore anaLee (some 4) "hi" 12).1.1.messages =
        hiStore.messages.map (appendRecipient 4 m0.id) ∧
      (send_message_api downBroker hiStore anaLee (some 4) "hi" 12).1.1.messages.map
          (fun m => m.id) =
        hiStore.messages.map (fun m => m.id) ∧
      (appendRecipient 4 m0.id m0).recipients =
        (if m0.recipients.contains 4 then m0.recipients else m0.recipients ++ [4])) ∧
    (hiStore.messages.find? (dedupMatch anaLee.id (py_strip "hi") 12) = none →
      (send_message_api downBroker hiStore anaLee (some 4) "hi" 12).1.1.messages =
        hiStore.messages ++ [{ id := hiStore.nextId, sender_id := anaLee.id,
                               recipients := [4], content := py_strip "hi",
                               message_type := "direct", is_read := false,
                               created_at := 12 }] ∧
      (send_message_api downBroker hiStore anaLee (some 4) "hi" 12).1.2 =
        SendResult.success hiStore.nextId 12)) :=
  ⟨by decide, by decide, by decide, by decide,
   C1_dedup_window downBroker hiStore anaLee dali "hi" 12 4
     (by decide) (by decide) (by decide)⟩
